import Mathlib

set_option maxHeartbeats 1000000
set_option maxRecDepth 10000

/-
Verification of the serialization layer in
src/shipit_dashboard/shipit_dashboard/serializers.py.

The Python values flowing through the serializers are JSON-like: strings,
integers, lists, string-keyed dictionaries (insertion-ordered) and None.
We embed them as the inductive type `Val` below, embed each serializer as
an executable Lean function over `Val` (fallible code returns
`Except String`), and prove the spec-level properties as theorems.
-/

namespace Shipit

/-- JSON-like Python values. Dictionaries are insertion-ordered association
lists with string keys, matching Python dict semantics for the payloads at
hand. -/
inductive Val : Type where
  | null : Val
  | str : String → Val
  | int : Int → Val
  | list : List Val → Val
  | dict : List (String × Val) → Val

/-- Python truthiness for the embedded values: None, empty strings, zero and
empty containers are falsy. -/
def Val.truthy : Val → Bool
  | .null => false
  | .str s => !s.isEmpty
  | .int n => n != 0
  | .list l => !l.isEmpty
  | .dict d => !d.isEmpty

/-- First binding of a key in an association list (Python dict keys are
unique, so first binding is the binding). -/
def dlookup (es : List (String × Val)) (k : String) : Option Val :=
  match es with
  | [] => none
  | (k2, v) :: rest => if k2 = k then some v else dlookup rest k

/-- Python `k in d`. -/
def containsKey (es : List (String × Val)) (k : String) : Bool :=
  (dlookup es k).isSome

/-- Python `d[k] = v`: overwrite in place if the key exists (keeping its
position), else append at the end, as insertion-ordered dicts do. -/
def dictSet (es : List (String × Val)) (k : String) (v : Val) : List (String × Val) :=
  match es with
  | [] => [(k, v)]
  | (k2, v2) :: rest => if k2 = k then (k2, v) :: rest else (k2, v2) :: dictSet rest k v

/-- Python `dict(pairs)`: fold the pairs into an insertion-ordered dict,
later values for a repeated key overwriting earlier ones in place. -/
def pyDict (ps : List (String × Val)) : List (String × Val) :=
  ps.foldl (fun acc kv => dictSet acc kv.1 kv.2) []

/-- Python `d[k]` on a dict: KeyError when absent. -/
def getItemD (es : List (String × Val)) (k : String) : Except String Val :=
  match dlookup es k with
  | some v => Except.ok v
  | none => Except.error ("KeyError: " ++ k)

/-- Python `str(v)` for the value shapes that reach it in this code
(attachment ids and flag statuses: integers and strings). Container reprs
are not modelled in detail; no claim exercises them. -/
def Val.pyStr : Val → String
  | .str s => s
  | .int n => toString n
  | .null => "None"
  | .list _ => "<list>"
  | .dict _ => "<dict>"

/-- Explicit bind on `Except String`, used to embed the sequencing of
fallible Python statements. -/
def ebind (e : Except String α) (f : α → Except String β) : Except String β :=
  match e with
  | .error msg => .error msg
  | .ok a => f a

/-- Mapping a fallible function over a list, failing fast like a Python
list comprehension. -/
def emapM (f : α → Except String β) : List α → Except String (List β)
  | [] => .ok []
  | x :: xs => ebind (f x) fun y => ebind (emapM f xs) fun ys => .ok (y :: ys)

/-- Left fold with a fallible step, failing fast like a Python `for` loop
whose body may raise. -/
def efoldl (f : σ → α → Except String σ) (s : σ) : List α → Except String σ
  | [] => .ok s
  | x :: xs => ebind (f s x) fun s2 => efoldl f s2 xs

/- ## String helpers mirroring the Python string methods used -/

/-- ASCII whitespace stripped by Python `str.strip()` (the payloads carry
only ASCII whitespace around emails). -/
def isPySpace (c : Char) : Bool :=
  c = ' ' || c = '\t' || c = '\n' || c = '\r' || c = '\x0b' || c = '\x0c'

/-- Python `str.strip()` on the character list. -/
def pyStripL (cs : List Char) : List Char :=
  ((cs.dropWhile isPySpace).reverse.dropWhile isPySpace).reverse

/-- Python `str.strip()`. -/
def pyStrip (s : String) : String :=
  String.mk (pyStripL s.data)

/-- ASCII lowering of one character, the fragment of Python `str.lower()`
exercised by email addresses. -/
def lowerChar (c : Char) : Char :=
  if 'A' ≤ c ∧ c ≤ 'Z' then Char.ofNat (c.toNat + 32) else c

/-- Python `str.lower()` (ASCII fragment). -/
def pyLower (s : String) : String :=
  String.mk (s.data.map lowerChar)

/-- Python `s.startswith(pat)`. -/
def pyStartsWith (s pat : String) : Bool :=
  pat.data.isPrefixOf s.data

/-- Worker for `s.replace(pat, '')`: Python replaces every non-overlapping
occurrence of the (nonempty) pattern, scanning left to right. Structural
recursion on a fuel that starts at the length of the scanned list; every
step consumes at least one character, so the fuel never runs out. -/
def stripAllGo (p : Char) (ps : List Char) : Nat → List Char → List Char
  | 0, s => s
  | _, [] => []
  | fuel + 1, c :: rest =>
    if (p :: ps).isPrefixOf (c :: rest) then
      stripAllGo p ps fuel (rest.drop ps.length)
    else
      c :: stripAllGo p ps fuel rest

/-- Python `s.replace(pat, '')`: remove every occurrence of `pat`. -/
def stripAll (pat s : String) : String :=
  match pat.data with
  | [] => s
  | p :: ps => String.mk (stripAllGo p ps s.data.length s.data)

/-- Worker for `s.replace(pat, '', 1)`: remove only the first occurrence. -/
def stripOnceAux (p : Char) (ps : List Char) : List Char → List Char
  | [] => []
  | c :: rest =>
    if (p :: ps).isPrefixOf (c :: rest) then rest.drop ps.length
    else c :: stripOnceAux p ps rest

/-- Python `s.replace(pat, '', 1)`. -/
def stripOnce (pat s : String) : String :=
  match pat.data with
  | [] => s
  | p :: ps => String.mk (stripOnceAux p ps s.data)

/-- Drop the first `n` characters of a string (`s[n:]`). -/
def stringDrop (n : Nat) (s : String) : String :=
  String.mk (s.data.drop n)

/-- Does `pat` occur as a contiguous substring? -/
def hasSubL (pat : List Char) : List Char → Bool
  | [] => pat.isEmpty
  | c :: rest => pat.isPrefixOf (c :: rest) || hasSubL pat rest

/-- Python `pat in s` for strings. -/
def hasSub (pat s : String) : Bool :=
  hasSubL pat.data s.data

/- ## MD5, as called through hashlib on the UTF-8 encoded email -/

/-- UTF-8 encoding of one character, as bytes. -/
def utf8Bytes (c : Char) : List Nat :=
  let n := c.toNat
  if n < 128 then [n]
  else if n < 2048 then [192 + n / 64, 128 + n % 64]
  else if n < 65536 then [224 + n / 4096, 128 + (n / 64) % 64, 128 + n % 64]
  else [240 + n / 262144, 128 + (n / 4096) % 64, 128 + (n / 64) % 64, 128 + n % 64]

/-- Python `s.encode('utf-8')`. -/
def utf8Encode (s : String) : List Nat :=
  s.data.foldr (fun c acc => utf8Bytes c ++ acc) []

/-- Reduce modulo 2 to the 32, the machine-word width of MD5 state. -/
def w32 (n : Nat) : Nat := n % 4294967296

/-- Rotate a 32-bit word left by `s` bits. -/
def rotl32 (x s : Nat) : Nat :=
  w32 (x * 2 ^ s + x / 2 ^ (32 - s))

/-- Bitwise complement within 32 bits. -/
def not32 (x : Nat) : Nat := Nat.xor x 4294967295

/-- MD5 round function F. -/
def mdF (b c d : Nat) : Nat := Nat.lor (Nat.land b c) (Nat.land (not32 b) d)

/-- MD5 round function G. -/
def mdG (b c d : Nat) : Nat := Nat.lor (Nat.land b d) (Nat.land c (not32 d))

/-- MD5 round function H. -/
def mdH (b c d : Nat) : Nat := Nat.xor (Nat.xor b c) d

/-- MD5 round function I. -/
def mdI (b c d : Nat) : Nat := Nat.xor c (Nat.lor b (not32 d))

/-- The 64 MD5 sine-derived constants (RFC 1321). -/
def mdK : List Nat :=
  [0xd76aa478, 0xe8c7b756, 0x242070db, 0xc1bdceee,
   0xf57c0faf, 0x4787c62a, 0xa8304613, 0xfd469501,
   0x698098d8, 0x8b44f7af, 0xffff5bb1, 0x895cd7be,
   0x6b901122, 0xfd987193, 0xa679438e, 0x49b40821,
   0xf61e2562, 0xc040b340, 0x265e5a51, 0xe9b6c7aa,
   0xd62f105d, 0x02441453, 0xd8a1e681, 0xe7d3fbc8,
   0x21e1cde6, 0xc33707d6, 0xf4d50d87, 0x455a14ed,
   0xa9e3e905, 0xfcefa3f8, 0x676f02d9, 0x8d2a4c8a,
   0xfffa3942, 0x8771f681, 0x6d9d6122, 0xfde5380c,
   0xa4beea44, 0x4bdecfa9, 0xf6bb4b60, 0xbebfbc70,
   0x289b7ec6, 0xeaa127fa, 0xd4ef3085, 0x04881d05,
   0xd9d4d039, 0xe6db99e5, 0x1fa27cf8, 0xc4ac5665,
   0xf4292244, 0x432aff97, 0xab9423a7, 0xfc93a039,
   0x655b59c3, 0x8f0ccc92, 0xffeff47d, 0x85845dd1,
   0x6fa87e4f, 0xfe2ce6e0, 0xa3014314, 0x4e0811a1,
   0xf7537e82, 0xbd3af235, 0x2ad7d2bb, 0xeb86d391]

/-- The 64 MD5 per-round rotation amounts. -/
def mdS : List Nat :=
  [7, 12, 17, 22, 7, 12, 17, 22, 7, 12, 17, 22, 7, 12, 17, 22,
   5, 9, 14, 20, 5, 9, 14, 20, 5, 9, 14, 20, 5, 9, 14, 20,
   4, 11, 16, 23, 4, 11, 16, 23, 4, 11, 16, 23, 4, 11, 16, 23,
   6, 10, 15, 21, 6, 10, 15, 21, 6, 10, 15, 21, 6, 10, 15, 21]

/-- One MD5 round on the running state, using message words `M`. -/
def md5Round (M : List Nat) (st : Nat × Nat × Nat × Nat) (i : Nat) : Nat × Nat × Nat × Nat :=
  let a := st.1
  let b := st.2.1
  let c := st.2.2.1
  let d := st.2.2.2
  let f := if i < 16 then mdF b c d else if i < 32 then mdG b c d
           else if i < 48 then mdH b c d else mdI b c d
  let g := if i < 16 then i else if i < 32 then (5 * i + 1) % 16
           else if i < 48 then (3 * i + 5) % 16 else (7 * i) % 16
  let tmp := w32 (a + f + mdK.getD i 0 + M.getD g 0)
  (d, w32 (b + rotl32 tmp (mdS.getD i 0)), b, c)

/-- Process one 512-bit chunk (given as sixteen 32-bit words). -/
def md5Chunk (st : Nat × Nat × Nat × Nat) (M : List Nat) : Nat × Nat × Nat × Nat :=
  let r := (List.range 64).foldl (md5Round M) st
  (w32 (st.1 + r.1), w32 (st.2.1 + r.2.1), w32 (st.2.2.1 + r.2.2.1), w32 (st.2.2.2 + r.2.2.2))

/-- Split the padded message into 64-byte chunks, by structural recursion
on a fuel that starts at the byte count (each step consumes 64 bytes). -/
def chunk64Go : Nat → List Nat → List (List Nat)
  | 0, _ => []
  | _, [] => []
  | fuel + 1, bs => bs.take 64 :: chunk64Go fuel (bs.drop 64)

/-- Split the padded message into 64-byte chunks. -/
def chunk64 (bs : List Nat) : List (List Nat) :=
  chunk64Go bs.length bs

/-- Group bytes into little-endian 32-bit words. -/
def leWords : List Nat → List Nat
  | b0 :: b1 :: b2 :: b3 :: rest =>
    (b0 + b1 * 256 + b2 * 65536 + b3 * 16777216) :: leWords rest
  | _ => []

/-- Little-endian bytes of a 32-bit word. -/
def leBytes4 (x : Nat) : List Nat :=
  [x % 256, x / 256 % 256, x / 65536 % 256, x / 16777216 % 256]

/-- Little-endian bytes of a 64-bit length field. -/
def leBytes8 (x : Nat) : List Nat :=
  leBytes4 (x % 4294967296) ++ leBytes4 (x / 4294967296)

/-- MD5 padding: a 1 bit, zeros to 56 mod 64 bytes, then the bit length. -/
def md5Pad (msg : List Nat) : List Nat :=
  let len := msg.length
  let z := (56 + 64 - (len + 1) % 64) % 64
  msg ++ [128] ++ List.replicate z 0 ++ leBytes8 (8 * len)

/-- The MD5 initial state. -/
def md5Init : Nat × Nat × Nat × Nat :=
  (0x67452301, 0xefcdab89, 0x98badcfe, 0x10325476)

/-- The 16-byte MD5 digest of a byte sequence. -/
def md5Bytes (msg : List Nat) : List Nat :=
  let final := (chunk64 (md5Pad msg)).foldl (fun st ch => md5Chunk st (leWords ch)) md5Init
  leBytes4 final.1 ++ leBytes4 final.2.1 ++ leBytes4 final.2.2.1 ++ leBytes4 final.2.2.2

/-- Lower-case hexadecimal digit. -/
def hexDigit (n : Nat) : Char :=
  if n < 10 then Char.ofNat (48 + n) else Char.ofNat (87 + n)

/-- Lower-case hexadecimal rendering of bytes, as `hexdigest()` returns. -/
def bytesToHex (bs : List Nat) : String :=
  String.mk (bs.foldr (fun b acc => hexDigit (b / 16) :: hexDigit (b % 16) :: acc) [])

/-- `hashlib.md5(s.encode('utf-8')).hexdigest()`. -/
def md5Hex (s : String) : String :=
  bytesToHex (md5Bytes (utf8Encode s))

/- ## serialize_user -/

/-- The fixed gravatar URL template applied to the digest of the
already-normalized email. -/
def gravatarUrl (email : String) : String :=
  "https://www.gravatar.com/avatar/" ++ md5Hex email

/-- Embedding of `serialize_user`. A mapping input keeps its entries (with
`email` backfilled from `name` when absent — the uplift-author case); a
scalar input becomes a mapping with `email` and `real_name` set to it.
Then the avatar URL is derived from the stripped, lower-cased email and
stored under `avatar`. Absent `name` on an email-less mapping is a Python
KeyError; a non-string email fails at `.strip()` — both are errors. -/
def serialize_user (user : Val) : Except String Val :=
  ebind
    (match user with
     | .dict es =>
       if containsKey es "email" then Except.ok es
       else
         match dlookup es "name" with
         | some n => Except.ok (dictSet es "email" n)
         | none => Except.error "KeyError: name"
     | u => Except.ok [("email", u), ("real_name", u)])
    fun out =>
  ebind (getItemD out "email") fun emailV =>
  ebind
    (match emailV with
     | .str s => Except.ok (pyLower (pyStrip s))
     | _ => Except.error "AttributeError: strip")
    fun email =>
  Except.ok (.dict (dictSet out "avatar" (.str (gravatarUrl email))))

/- ## serialize_bug -/

/-- The Bug ORM entity consumed by `serialize_bug` (attributes `id`,
`bugzilla_id`, `payload_data`) and filtered on `payload` truthiness by
`serialize_analysis`. -/
structure Bug : Type where
  id : Int
  bugzilla_id : Int
  payload : Val
  payload_data : Val

/-- The approval flag name marker `approval-mozilla-`. -/
def approvalBase : String := "approval-mozilla-"

/-- The fresh versions entry created on first sight of a grouping key. -/
def newVersionEntry (fname : String) (status : Val) : Val :=
  .dict [("name", .str fname), ("attachments", .list []), ("status", status)]

/-- `versions[key]['attachments'].append(idStr)`: locate the entry for
`key` and append the stringified attachment id to its `attachments` list.
A missing key or a non-list `attachments` would be a Python error (never
reached: entries are created by `newVersionEntry` before appending). -/
def appendAttE (versions : List (String × Val)) (key : String) (idStr : String) :
    Except String (List (String × Val)) :=
  match versions with
  | [] => Except.error ("KeyError: " ++ key)
  | (k, v) :: rest =>
    if k = key then
      match v with
      | .dict es =>
        match dlookup es "attachments" with
        | some (.list l) =>
          Except.ok ((k, Val.dict (dictSet es "attachments" (.list (l ++ [.str idStr])))) :: rest)
        | some _ => Except.error "AttributeError: append"
        | none => Except.error "KeyError: attachments"
      | _ => Except.error "TypeError: subscript"
    else
      ebind (appendAttE rest key idStr) fun rest2 => Except.ok ((k, v) :: rest2)

/-- Body of the inner loop of the versions grouping, for one flag of
attachment `a`: skip flags not named with the approval marker; otherwise
derive `base_name` via `replace(approval_base_flag, '')`, build the key
`base_name ++ " " ++ status`, create the entry on first sight, and append
`str(a['id'])`. -/
def processFlag (a : Val) (versions : List (String × Val)) (flag : Val) :
    Except String (List (String × Val)) :=
  ebind
    (match flag with
     | .dict fes => getItemD fes "name"
     | _ => Except.error "TypeError: subscript")
    fun fnameV =>
  ebind
    (match fnameV with
     | .str s => Except.ok s
     | _ => Except.error "AttributeError: startswith")
    fun fname =>
  if pyStartsWith fname approvalBase then
    ebind
      (match flag with
       | .dict fes => getItemD fes "status"
       | _ => Except.error "TypeError: subscript")
      fun statusV =>
    let key := stripAll approvalBase fname ++ " " ++ statusV.pyStr
    let versions1 :=
      if containsKey versions key then versions
      else versions ++ [(key, newVersionEntry fname statusV)]
    ebind
      (match a with
       | .dict aes => getItemD aes "id"
       | _ => Except.error "TypeError: subscript")
      fun idV =>
    appendAttE versions1 key idV.pyStr
  else
    Except.ok versions

/-- Outer loop body of the versions grouping: iterate `a['flags']`. -/
def processAttachment (versions : List (String × Val)) (a : Val) :
    Except String (List (String × Val)) :=
  ebind
    (match a with
     | .dict aes => getItemD aes "flags"
     | _ => Except.error "TypeError: subscript")
    fun flagsV =>
  match flagsV with
  | .list fs => efoldl (processFlag a) versions fs
  | _ => Except.error "TypeError: iteration"

/-- The versions grouping of `serialize_bug`, over the value of
`bug_data.get('attachments', [])`. -/
def buildVersions (attachmentsV : Val) : Except String (List (String × Val)) :=
  match attachmentsV with
  | .list items => efoldl processAttachment [] items
  | _ => Except.error "TypeError: iteration"

/-- The uplift block of `serialize_bug`, over the analysis entries: `None`
(here `Val.null`) unless both `analysis.get('uplift_comment')` and
`analysis.get('uplift_author')` are truthy; otherwise a mapping with the
comment id, the normalized author and the comment body, which is
`comment['html']` when the key is present, else `comment.get('text', 'No
comment.')`. Membership tests on a non-mapping truthy comment are not
modelled beyond an error. -/
def buildUplift (anaEs : List (String × Val)) : Except String Val :=
  let uc := (dlookup anaEs "uplift_comment").getD .null
  let ua := (dlookup anaEs "uplift_author").getD .null
  if uc.truthy && ua.truthy then
    match uc with
    | .dict ces =>
      let commentHtml :=
        match dlookup ces "html" with
        | some h => h
        | none => (dlookup ces "text").getD (.str "No comment.")
      ebind (getItemD ces "id") fun idV =>
      ebind (serialize_user ua) fun author =>
      Except.ok (.dict [("id", idV), ("author", author), ("comment", commentHtml)])
    | _ => Except.error "TypeError: membership"
  else
    Except.ok .null

/-- The nested helper `_filter_flags` of `serialize_bug`: keep the bug
fields whose name starts with `base ++ "firefox"`, strip the first
occurrence of `base` from each name, and build a dict of the results. -/
def _filter_flags (bugEs : List (String × Val)) (base : String) : Val :=
  .dict (pyDict ((bugEs.filter (fun kv => pyStartsWith kv.1 (base ++ "firefox"))).map
    (fun kv => (stripOnce base kv.1, kv.2))))

/-- Embedding of `serialize_bug`: raise on a falsy `payload_data`, raise
when either of `payload.get('bug')` and `payload.get('analysis')` is
falsy, then assemble the output record. Sub-values are matched to
mappings where Python would call mapping methods on them (a truthy
non-mapping would raise there too, with a different message). Evaluation
order of the fallible pieces follows the Python source. -/
def serialize_bug (bug : Bug) : Except String Val :=
  let payload := bug.payload_data
  if payload.truthy then
    ebind
      (match payload with
       | .dict es => Except.ok es
       | _ => Except.error "AttributeError: get")
      fun payloadEs =>
    let bugData := (dlookup payloadEs "bug").getD .null
    let analysis := (dlookup payloadEs "analysis").getD .null
    if bugData.truthy && analysis.truthy then
      ebind
        (match analysis with
         | .dict es => Except.ok es
         | _ => Except.error "AttributeError: get")
        fun anaEs =>
      ebind (buildUplift anaEs) fun uplift =>
      ebind
        (match bugData with
         | .dict es => Except.ok es
         | _ => Except.error "AttributeError: get")
        fun bugEs =>
      ebind (buildVersions ((dlookup bugEs "attachments").getD (.list []))) fun versions =>
      ebind (getItemD bugEs "summary") fun summary =>
      ebind (getItemD bugEs "keywords") fun keywords =>
      ebind (getItemD anaEs "users") fun usersV =>
      ebind
        (match usersV with
         | .dict es => Except.ok es
         | _ => Except.error "TypeError: subscript")
        fun usersEs =>
      ebind (getItemD usersEs "creator") fun creatorV =>
      ebind (serialize_user creatorV) fun creator =>
      ebind (getItemD usersEs "assignee") fun assigneeV =>
      ebind (serialize_user assigneeV) fun assignee =>
      ebind (getItemD usersEs "reviewers") fun reviewersV =>
      ebind
        (match reviewersV with
         | .list rs => emapM serialize_user rs
         | _ => Except.error "TypeError: iteration")
        fun reviewers =>
      ebind (getItemD anaEs "patches") fun patches =>
      Except.ok (.dict
        [("id", .int bug.id),
         ("bugzilla_id", .int bug.bugzilla_id),
         ("url", (dlookup payloadEs "url").getD
            (.str ("https://bugzil.la/" ++ toString bug.bugzilla_id))),
         ("summary", summary),
         ("keywords", keywords),
         ("flags_status", _filter_flags bugEs "cf_status_"),
         ("flags_tracking", _filter_flags bugEs "cf_tracking_"),
         ("creator", creator),
         ("assignee", assignee),
         ("reviewers", .list reviewers),
         ("changes_size", (dlookup anaEs "changes_size").getD (.int 0)),
         ("uplift", uplift),
         ("patches", patches),
         ("versions", .dict versions)])
    else
      Except.error "Missing Bug data or Analysis"
  else
    Except.error "Missing payload"

/- ## serialize_analysis -/

/-- The Analysis ORM entity consumed by `serialize_analysis`. -/
structure Analysis : Type where
  id : Int
  name : String
  parameters : Val
  bugs : List Bug

/-- Embedding of `serialize_analysis`: id, name, bug count and parameters
always; when `full`, `bugs` holds the serialization of every bug whose
`payload` attribute is truthy, otherwise `bugs` is the empty list. -/
def serialize_analysis (analysis : Analysis) (full : Bool) : Except String Val :=
  let base : List (String × Val) :=
    [("id", .int analysis.id),
     ("name", .str analysis.name),
     ("count", .int (analysis.bugs.length : Int)),
     ("parameters", analysis.parameters)]
  if full then
    ebind (emapM serialize_bug (analysis.bugs.filter (fun b => b.payload.truthy)))
      fun serialized =>
    Except.ok (.dict (base ++ [("bugs", .list serialized)]))
  else
    Except.ok (.dict (base ++ [("bugs", .list [])]))

/-- Extract a field from a serialization result, for stating claims about
one output field of a run. -/
def getField (e : Except String Val) (k : String) : Option Val :=
  match e with
  | .ok (.dict es) => dlookup es k
  | _ => none

/-- `Val.getOpt`: field lookup on a mapping value. -/
def Val.getOpt : Val → String → Option Val
  | .dict es, k => dlookup es k
  | _, _ => none

/-- The email string the code reads off a user value: the `email` entry of
a mapping, the `name` entry when `email` is absent, or the scalar itself —
provided it is a string. -/
def emailOf : Val → Option String
  | .dict es =>
    (match (dlookup es "email").getD ((dlookup es "name").getD .null) with
     | .str s => some s
     | _ => none)
  | .str s => some s
  | _ => none

/- ## Concrete inputs used by the witnesses and counterexamples -/

/-- A bug with no payload at all. -/
def c1emptyBug : Bug := ⟨1, 11, .null, .null⟩

/-- A bug whose payload has a `bug` sub-object but no `analysis` key. -/
def c1noAnaBug : Bug := ⟨2, 12, .null, .dict [("bug", .dict [("summary", .str "s")])]⟩

/-- A bug whose payload carries `bug` as an empty mapping (present but
falsy) next to a well-formed `analysis`. -/
def c9emptyBugData : Bug :=
  ⟨3, 13, .null, .dict [("bug", .dict []), ("analysis", .dict [("patches", .list [])])]⟩

/-- A concrete analysis with one payload-less bug. -/
def c4ana : Analysis := ⟨5, "uplift train", .dict [("versions", .list [.str "52"])], [c1emptyBug]⟩

/-- The normalized record of the bare-string user `"Foo@Bar.com "`. -/
def c7out1 : Val :=
  .dict [("email", .str "Foo@Bar.com "), ("real_name", .str "Foo@Bar.com "),
    ("avatar", .str "https://www.gravatar.com/avatar/f3ada405ce890b6f8204094deb12d8a8")]

/-- The normalized record of the bare-string user `"foo@bar.com"`. -/
def c7out2 : Val :=
  .dict [("email", .str "foo@bar.com"), ("real_name", .str "foo@bar.com"),
    ("avatar", .str "https://www.gravatar.com/avatar/f3ada405ce890b6f8204094deb12d8a8")]

/-- The normalized record of the email-less user mapping with name
`"Jane"`. -/
def c6outEs : List (String × Val) :=
  [("name", .str "Jane"), ("email", .str "Jane"),
    ("avatar", .str "https://www.gravatar.com/avatar/5844a15e76563fedd11840fd6f40ea7b")]

/-- An attachment carrying one approval flag. -/
def mkAtt (n : Int) (fname st : String) : Val :=
  .dict [("id", .int n), ("flags", .list [.dict [("name", .str fname), ("status", .str st)]])]

/-- A bug whose two attachments (ids 42 and 43) carry the same beta
approval flag. -/
def c2bug : Bug :=
  ⟨6, 16, .null, .dict
    [("bug", .dict
       [("summary", .str "crash"),
        ("keywords", .list []),
        ("attachments", .list
          [mkAtt 42 "approval-mozilla-beta" "+", mkAtt 43 "approval-mozilla-beta" "+"])]),
     ("analysis", .dict
       [("users", .dict
          [("creator", .str "c@x.org"), ("assignee", .str "a@x.org"), ("reviewers", .list [])]),
        ("patches", .list [])])]⟩

/-- Analysis entries whose uplift comment key is present but holds an
empty (falsy) mapping. -/
def c3anaEs : List (String × Val) :=
  [("uplift_comment", .dict []),
   ("uplift_author", .str "dev@x.org"),
   ("users", .dict
     [("creator", .str "c@x.org"), ("assignee", .str "a@x.org"), ("reviewers", .list [])]),
   ("patches", .list [])]

/-- A bug whose analysis carries the falsy uplift comment of `c3anaEs`. -/
def c3bug : Bug :=
  ⟨8, 18, .null, .dict
    [("bug", .dict [("summary", .str "s"), ("keywords", .list [])]),
     ("analysis", .dict c3anaEs)]⟩

/-- Analysis entries with a truthy uplift comment carrying html. -/
def c3goodAnaEs : List (String × Val) :=
  [("uplift_comment", .dict [("id", .int 9), ("html", .str "<p>hi</p>")]),
   ("uplift_author", .str "dev@x.org")]

/-- The normalized uplift author of `c3goodAnaEs`. -/
def c3author : Val :=
  .dict [("email", .str "dev@x.org"), ("real_name", .str "dev@x.org"),
    ("avatar", .str "https://www.gravatar.com/avatar/bb46b0a56f459b44d8ea65e64436b24f")]

/-- A bug whose `bug` sub-object has no `attachments` key but is otherwise
complete. -/
def c10bug : Bug :=
  ⟨9, 19, .null, .dict
    [("bug", .dict [("summary", .str "s"), ("keywords", .list [])]),
     ("analysis", .dict
       [("users", .dict
          [("creator", .str "c@x.org"), ("assignee", .str "a@x.org"), ("reviewers", .list [])]),
        ("patches", .list [])])]⟩

/-- The same bug with the `summary` field also removed. -/
def c10noSummaryBug : Bug :=
  ⟨10, 20, .null, .dict
    [("bug", .dict [("keywords", .list [])]),
     ("analysis", .dict
       [("users", .dict
          [("creator", .str "c@x.org"), ("assignee", .str "a@x.org"), ("reviewers", .list [])]),
        ("patches", .list [])])]⟩

/-- The serialized record of `c10bug`. -/
def c10out : Val :=
  .dict
    [("id", .int 9), ("bugzilla_id", .int 19),
     ("url", .str "https://bugzil.la/19"),
     ("summary", .str "s"), ("keywords", .list []),
     ("flags_status", .dict []), ("flags_tracking", .dict []),
     ("creator", .dict [("email", .str "c@x.org"), ("real_name", .str "c@x.org"),
        ("avatar", .str "https://www.gravatar.com/avatar/614191a881d2a580ebf5a67f6a82ff5c")]),
     ("assignee", .dict [("email", .str "a@x.org"), ("real_name", .str "a@x.org"),
        ("avatar", .str "https://www.gravatar.com/avatar/a3b41ff4486881e36bcbc10292f307bb")]),
     ("reviewers", .list []),
     ("changes_size", .int 0),
     ("uplift", .null),
     ("patches", .list []),
     ("versions", .dict [])]

/-- Bug fields mixing custom status and tracking flags with an ordinary
field. -/
def c8es : List (String × Val) :=
  [("cf_status_firefox52", .str "affected"), ("cf_tracking_firefox52", .str "+"),
   ("summary", .str "s")]

/- ## Basic lemmas about the embedding combinators -/

@[simp]
theorem ebind_ok (a : α) (f : α → Except String β) : ebind (.ok a) f = f a := rfl

@[simp]
theorem ebind_error (m : String) (f : α → Except String β) :
    ebind (.error m) f = .error m := rfl

theorem ebind_eq_ok {e : Except String α} {f : α → Except String β} {b : β}
    (h : ebind e f = .ok b) : ∃ a, e = .ok a ∧ f a = .ok b := by
  cases e with
  | error m => simp [ebind] at h
  | ok a => exact ⟨a, rfl, h⟩

theorem getItemD_eq_ok {es : List (String × Val)} {k : String} {v : Val}
    (h : getItemD es k = .ok v) : dlookup es k = some v := by
  unfold getItemD at h
  cases hl : dlookup es k with
  | none => rw [hl] at h; exact absurd h (by simp)
  | some w => rw [hl] at h; cases h; rfl

@[simp]
theorem getItemD_some {es : List (String × Val)} {k : String} {v : Val}
    (h : dlookup es k = some v) : getItemD es k = .ok v := by
  unfold getItemD; rw [h]

theorem dlookup_dictSet_self (es : List (String × Val)) (k : String) (v : Val) :
    dlookup (dictSet es k v) k = some v := by
  induction es with
  | nil => simp [dictSet, dlookup]
  | cons e rest ih =>
    by_cases h : e.1 = k
    · simp [dictSet, dlookup, h]
    · simp [dictSet, dlookup, h, ih]

theorem dlookup_dictSet_ne (es : List (String × Val)) (k k2 : String) (v : Val)
    (h : k ≠ k2) : dlookup (dictSet es k v) k2 = dlookup es k2 := by
  induction es with
  | nil => simp [dictSet, dlookup, h]
  | cons e rest ih =>
    by_cases h1 : e.1 = k
    · simp [dictSet, dlookup, h1, h]
    · simp [dictSet, dlookup, h1, ih]

theorem dlookup_ne_nil {es : List (String × Val)} {k : String} {v : Val}
    (h : dlookup es k = some v) : es ≠ [] := by
  intro hnil
  rw [hnil] at h
  simp [dlookup] at h

theorem dict_truthy_of_mem {es : List (String × Val)} {k : String} {v : Val}
    (h : dlookup es k = some v) : (Val.dict es).truthy = true := by
  cases es with
  | nil => simp [dlookup] at h
  | cons e rest => simp [Val.truthy, List.isEmpty]

/-- Inversion of a successful `serialize_bug` run on a well-shaped
payload: the output is the assembled record, each field produced by the
corresponding component of the embedding. -/
theorem serialize_bug_ok_shape (bug : Bug) (payloadEs bugEs anaEs : List (String × Val))
    (out : Val)
    (hp : bug.payload_data = .dict payloadEs)
    (hb : dlookup payloadEs "bug" = some (.dict bugEs))
    (ha : dlookup payloadEs "analysis" = some (.dict anaEs))
    (hbt : (Val.dict bugEs).truthy = true)
    (hat : (Val.dict anaEs).truthy = true)
    (hok : serialize_bug bug = .ok out) :
    ∃ uplift versions summary keywords creator assignee reviewers patches,
      buildUplift anaEs = .ok uplift ∧
      buildVersions ((dlookup bugEs "attachments").getD (.list [])) = .ok versions ∧
      dlookup bugEs "summary" = some summary ∧
      dlookup bugEs "keywords" = some keywords ∧
      out = .dict
        [("id", .int bug.id),
         ("bugzilla_id", .int bug.bugzilla_id),
         ("url", (dlookup payloadEs "url").getD
            (.str ("https://bugzil.la/" ++ toString bug.bugzilla_id))),
         ("summary", summary),
         ("keywords", keywords),
         ("flags_status", _filter_flags bugEs "cf_status_"),
         ("flags_tracking", _filter_flags bugEs "cf_tracking_"),
         ("creator", creator),
         ("assignee", assignee),
         ("reviewers", .list reviewers),
         ("changes_size", (dlookup anaEs "changes_size").getD (.int 0)),
         ("uplift", uplift),
         ("patches", patches),
         ("versions", .dict versions)] := by
  have hpt : (Val.dict payloadEs).truthy = true := dict_truthy_of_mem hb
  unfold serialize_bug at hok
  rw [hp] at hok
  simp only [hpt, eq_self_iff_true, if_true, ebind_ok] at hok
  rw [hb, ha] at hok
  simp only [Option.getD_some, hbt, hat, Bool.and_self, eq_self_iff_true, if_true,
    ebind_ok] at hok
  obtain ⟨uplift, hu, hok⟩ := ebind_eq_ok hok
  obtain ⟨versions, hv, hok⟩ := ebind_eq_ok hok
  obtain ⟨summary, hsum, hok⟩ := ebind_eq_ok hok
  obtain ⟨keywords, hkw, hok⟩ := ebind_eq_ok hok
  obtain ⟨usersV, hus, hok⟩ := ebind_eq_ok hok
  obtain ⟨usersEs, husE, hok⟩ := ebind_eq_ok hok
  obtain ⟨creatorV, hcv, hok⟩ := ebind_eq_ok hok
  obtain ⟨creator, hc, hok⟩ := ebind_eq_ok hok
  obtain ⟨assigneeV, hav, hok⟩ := ebind_eq_ok hok
  obtain ⟨assignee, hasg, hok⟩ := ebind_eq_ok hok
  obtain ⟨reviewersV, hrv, hok⟩ := ebind_eq_ok hok
  obtain ⟨reviewers, hr, hok⟩ := ebind_eq_ok hok
  obtain ⟨patches, hpa, hok⟩ := ebind_eq_ok hok
  cases hok
  exact ⟨uplift, versions, summary, keywords, creator, assignee, reviewers, patches,
    hu, hv, getItemD_eq_ok hsum, getItemD_eq_ok hkw, rfl⟩

/- ## C1 -/

/-- C1: `serialize_bug` raises an error when the bug's `payload_data` is
empty or absent (falsy), and raises an error when either the `bug` or the
`analysis` sub-key is missing from the payload; under these errors the
result is an error, never a serialized record. -/
theorem C1_serialize_bug_missing_errors (bug : Bug) :
    (bug.payload_data.truthy = false → serialize_bug bug = .error "Missing payload") ∧
    (∀ payloadEs, bug.payload_data = .dict payloadEs →
      bug.payload_data.truthy = true →
      (dlookup payloadEs "bug" = none ∨ dlookup payloadEs "analysis" = none) →
      serialize_bug bug = .error "Missing Bug data or Analysis") := by
  constructor
  · intro h
    unfold serialize_bug
    simp [h]
  · intro payloadEs hp hpt hmiss
    rw [hp] at hpt
    unfold serialize_bug
    rw [hp]
    simp only [hpt, eq_self_iff_true, if_true, ebind_ok]
    rcases hmiss with h | h
    · simp [h, Val.truthy]
    · simp [h, Val.truthy]

/-- C1 witness: both error paths fire on concrete bugs. -/
theorem C1_serialize_bug_missing_errors_witness :
    serialize_bug c1emptyBug = .error "Missing payload" ∧
    serialize_bug c1noAnaBug = .error "Missing Bug data or Analysis" := by
  constructor
  · exact (C1_serialize_bug_missing_errors c1emptyBug).1 (by rfl)
  · exact (C1_serialize_bug_missing_errors c1noAnaBug).2 _ rfl (by rfl) (Or.inr (by rfl))

/- ## C9 -/

/-- C9: the missing-substructure error is raised not only when the `bug`
or `analysis` key is absent, but whenever either key is present with a
falsy value (such as an empty mapping): the check is on truthiness, not on
key presence. -/
theorem C9_falsy_subobject_errors (bug : Bug) (payloadEs : List (String × Val)) (v : Val)
    (hp : bug.payload_data = .dict payloadEs)
    (hpt : bug.payload_data.truthy = true)
    (hpresent : dlookup payloadEs "bug" = some v ∨ dlookup payloadEs "analysis" = some v)
    (hfalsy : v.truthy = false) :
    serialize_bug bug = .error "Missing Bug data or Analysis" := by
  rw [hp] at hpt
  unfold serialize_bug
  rw [hp]
  simp only [hpt, eq_self_iff_true, if_true, ebind_ok]
  rcases hpresent with h | h
  · simp [h, hfalsy]
  · simp [h, hfalsy]

/-- C9 witness: a present-but-empty `bug` sub-object raises the
missing-substructure error. -/
theorem C9_falsy_subobject_errors_witness :
    serialize_bug c9emptyBugData = .error "Missing Bug data or Analysis" :=
  C9_falsy_subobject_errors c9emptyBugData
    [("bug", .dict []), ("analysis", .dict [("patches", .list [])])] (.dict [])
    rfl (by rfl) (Or.inl (by rfl)) (by rfl)

/- ## C4 -/

/-- C4: `serialize_analysis a full := false` returns a record whose `bugs`
field is the empty list while `count` still equals the number of bugs of
the analysis; and the `id`, `name` and `parameters` fields are passed
through unchanged for either value of `full` whenever a record is
produced. -/
theorem C4_serialize_analysis_fields (a : Analysis) :
    serialize_analysis a false =
      .ok (.dict [("id", .int a.id), ("name", .str a.name),
        ("count", .int (a.bugs.length : Int)), ("parameters", a.parameters),
        ("bugs", .list [])]) ∧
    (∀ full out, serialize_analysis a full = .ok out →
      out.getOpt "id" = some (.int a.id) ∧
      out.getOpt "name" = some (.str a.name) ∧
      out.getOpt "count" = some (.int (a.bugs.length : Int)) ∧
      out.getOpt "parameters" = some a.parameters) := by
  constructor
  · simp [serialize_analysis]
  · intro full out hok
    cases full with
    | false =>
      unfold serialize_analysis at hok
      simp only [if_neg] at hok
      cases hok
      simp [Val.getOpt, dlookup]
    | true =>
      unfold serialize_analysis at hok
      simp only [eq_self_iff_true, if_true] at hok
      obtain ⟨l, hl, hok⟩ := ebind_eq_ok hok
      cases hok
      simp [Val.getOpt, dlookup]

/-- C4 witness: the summary form and, with `full := true`, the skipping of
the payload-less bug; the scalar fields pass through in both cases. -/
theorem C4_serialize_analysis_fields_witness :
    serialize_analysis c4ana false =
      .ok (.dict [("id", .int 5), ("name", .str "uplift train"),
        ("count", .int 1), ("parameters", .dict [("versions", .list [.str "52"])]),
        ("bugs", .list [])]) ∧
    ((serialize_analysis c4ana true).map (fun out => out.getOpt "count") =
      .ok (some (.int 1))) ∧
    ((serialize_analysis c4ana true).map (fun out => out.getOpt "parameters") =
      .ok (some (.dict [("versions", .list [.str "52"])]))) := by
  refine ⟨(C4_serialize_analysis_fields c4ana).1, ?_, ?_⟩
  · have h := ((C4_serialize_analysis_fields c4ana).2 true
      (.dict [("id", .int 5), ("name", .str "uplift train"), ("count", .int 1),
        ("parameters", .dict [("versions", .list [.str "52"])]), ("bugs", .list [])])
      (by rfl)).2.2.1
    rw [show serialize_analysis c4ana true =
      .ok (.dict [("id", .int 5), ("name", .str "uplift train"), ("count", .int 1),
        ("parameters", .dict [("versions", .list [.str "52"])]), ("bugs", .list [])])
      from rfl]
    simpa [Except.map, c4ana] using h
  · have h := ((C4_serialize_analysis_fields c4ana).2 true
      (.dict [("id", .int 5), ("name", .str "uplift train"), ("count", .int 1),
        ("parameters", .dict [("versions", .list [.str "52"])]), ("bugs", .list [])])
      (by rfl)).2.2.2
    rw [show serialize_analysis c4ana true =
      .ok (.dict [("id", .int 5), ("name", .str "uplift train"), ("count", .int 1),
        ("parameters", .dict [("versions", .list [.str "52"])]), ("bugs", .list [])])
      from rfl]
    simpa [Except.map, c4ana] using h

/- ## serialize_user inversion -/

/-- Inversion of a successful `serialize_user` run: the output is the
pre-avatar record `out0` with the gravatar URL of its stripped,
lower-cased email stored under `avatar`, and `out0` arises in one of the
three ways the code allows. -/
theorem serialize_user_ok_shape {u out : Val} (h : serialize_user u = .ok out) :
    ∃ out0 s,
      dlookup out0 "email" = some (.str s) ∧
      out = .dict (dictSet out0 "avatar" (.str (gravatarUrl (pyLower (pyStrip s))))) ∧
      ((∃ es, u = .dict es ∧ containsKey es "email" = true ∧ out0 = es) ∨
       (∃ es, u = .dict es ∧ dlookup es "email" = none ∧ dlookup es "name" = some (.str s) ∧
          out0 = dictSet es "email" (.str s)) ∨
       (u = .str s ∧ out0 = [("email", .str s), ("real_name", .str s)])) := by
  unfold serialize_user at h
  obtain ⟨out0, h0, h⟩ := ebind_eq_ok h
  obtain ⟨emailV, he, h⟩ := ebind_eq_ok h
  obtain ⟨email, hs, h⟩ := ebind_eq_ok h
  cases emailV with
  | str s =>
    cases hs
    cases h
    have hemail : dlookup out0 "email" = some (.str s) := getItemD_eq_ok he
    refine ⟨out0, s, hemail, rfl, ?_⟩
    cases u with
    | dict es =>
      dsimp only at h0
      cases hc : containsKey es "email" with
      | true =>
        rw [if_pos hc] at h0
        cases h0
        exact Or.inl ⟨out0, rfl, hc, rfl⟩
      | false =>
        rw [if_neg (by simp [hc])] at h0
        have hnone : dlookup es "email" = none := by
          cases hl : dlookup es "email" with
          | none => rfl
          | some w => rw [containsKey, hl] at hc; simp at hc
        cases hn : dlookup es "name" with
        | none => rw [hn] at h0; exact absurd h0 (by simp)
        | some n =>
          rw [hn] at h0
          cases h0
          have : some n = some (Val.str s) := by
            rw [← dlookup_dictSet_self es "email" n, hemail]
          cases this
          exact Or.inr (Or.inl ⟨es, rfl, hnone, hn, rfl⟩)
    | str s0 =>
      dsimp only at h0
      cases h0
      have : some (Val.str s0) = some (Val.str s) := by
        rw [← hemail]; simp [dlookup]
      cases this
      exact Or.inr (Or.inr ⟨rfl, rfl⟩)
    | null => dsimp only at h0; cases h0; simp [dlookup] at hemail
    | int n => dsimp only at h0; cases h0; simp [dlookup] at hemail
    | list l => dsimp only at h0; cases h0; simp [dlookup] at hemail
  | null => exact absurd hs (by simp)
  | int n => exact absurd hs (by simp)
  | list l => exact absurd hs (by simp)
  | dict es => exact absurd hs (by simp)

/-- Unfolding `emailOf` on a mapping. -/
theorem emailOf_dict (es : List (String × Val)) :
    emailOf (.dict es) =
      (match (dlookup es "email").getD ((dlookup es "name").getD .null) with
       | .str s => some s
       | _ => none) := rfl

/-- Unfolding `emailOf` on a bare string. -/
theorem emailOf_str (s : String) : emailOf (.str s) = some s := rfl

/-- The avatar URL of any successfully normalized user is the gravatar URL
of its stripped, lower-cased email. -/
theorem serialize_user_avatar {u out : Val} {s : String}
    (h : serialize_user u = .ok out) (he : emailOf u = some s) :
    out.getOpt "avatar" = some (.str (gravatarUrl (pyLower (pyStrip s)))) := by
  obtain ⟨out0, s0, hemail, hout, hcase⟩ := serialize_user_ok_shape h
  have hs : s0 = s := by
    rcases hcase with ⟨es, hu, hc, h0⟩ | ⟨es, hu, hno, hname, h0⟩ | ⟨hu, h0⟩
    · subst hu
      subst h0
      rw [emailOf_dict, hemail] at he
      simpa using he
    · subst hu
      rw [emailOf_dict, hno, hname] at he
      simpa using he
    · subst hu
      rw [emailOf_str] at he
      simpa using he
  subst hs
  rw [hout]
  simp [Val.getOpt, dlookup_dictSet_self]

/- ## C6 -/

/-- C6: for every user mapping lacking an `email` field, the output of
`serialize_user` carries the input's `name` as its `email`; and every
successful normalization yields a mapping containing both an `email` and
an `avatar` key. -/
theorem C6_serialize_user_email_fallback (es : List (String × Val)) :
    (dlookup es "email" = none →
      ∀ out, serialize_user (.dict es) = .ok out →
        out.getOpt "email" = dlookup es "name") ∧
    (∀ u out, serialize_user u = .ok out →
      ∃ outEs, out = .dict outEs ∧ containsKey outEs "email" = true ∧
        containsKey outEs "avatar" = true) := by
  constructor
  · intro hnone out hok
    obtain ⟨out0, s, hemail, hout, hcase⟩ := serialize_user_ok_shape hok
    rcases hcase with ⟨es2, hu, hc, h0⟩ | ⟨es2, hu, hno, hname, h0⟩ | ⟨hu, h0⟩
    · cases hu
      rw [containsKey, hnone] at hc
      simp at hc
    · cases hu
      subst h0
      rw [hout]
      simp only [Val.getOpt]
      rw [dlookup_dictSet_ne _ _ _ _ (by decide),
        dlookup_dictSet_self, hname]
    · exact absurd hu (by simp)
  · intro u out hok
    obtain ⟨out0, s, hemail, hout, hcase⟩ := serialize_user_ok_shape hok
    refine ⟨dictSet out0 "avatar" (.str (gravatarUrl (pyLower (pyStrip s)))), hout, ?_, ?_⟩
    · rw [containsKey, dlookup_dictSet_ne _ _ _ _ (by decide), hemail]
      rfl
    · rw [containsKey, dlookup_dictSet_self]
      rfl

/-- C6 witness: normalizing the email-less mapping with name `"Jane"`
yields `email = "Jane"` and the output carries both keys. -/
theorem C6_serialize_user_email_fallback_witness :
    (Val.dict c6outEs).getOpt "email" = dlookup [("name", .str "Jane")] "name" ∧
    containsKey c6outEs "email" = true ∧
    containsKey c6outEs "avatar" = true := by
  refine ⟨(C6_serialize_user_email_fallback [("name", .str "Jane")]).1 (by rfl)
    (.dict c6outEs) (by rfl), ?_, ?_⟩
  · obtain ⟨outEs, hout, h1, h2⟩ :=
      (C6_serialize_user_email_fallback [("name", .str "Jane")]).2
        (.dict [("name", .str "Jane")]) (.dict c6outEs) (by rfl)
    cases hout
    exact h1
  · obtain ⟨outEs, hout, h1, h2⟩ :=
      (C6_serialize_user_email_fallback [("name", .str "Jane")]).2
        (.dict [("name", .str "Jane")]) (.dict c6outEs) (by rfl)
    cases hout
    exact h2

/- ## C7 -/

/-- C7: the avatar URL is a deterministic function of the email up to
stripping and lower-casing — two user inputs whose emails agree after
normalization receive identical avatar URLs, namely the fixed gravatar
template applied to the hex MD5 digest of the normalized email. -/
theorem C7_avatar_deterministic (u1 u2 : Val) (e1 e2 : String) (out1 out2 : Val)
    (h1 : emailOf u1 = some e1) (h2 : emailOf u2 = some e2)
    (heq : pyLower (pyStrip e1) = pyLower (pyStrip e2))
    (hs1 : serialize_user u1 = .ok out1) (hs2 : serialize_user u2 = .ok out2) :
    out1.getOpt "avatar" = out2.getOpt "avatar" ∧
    out1.getOpt "avatar" =
      some (.str ("https://www.gravatar.com/avatar/" ++ md5Hex (pyLower (pyStrip e1)))) := by
  rw [serialize_user_avatar hs1 h1, serialize_user_avatar hs2 h2, heq]
  exact ⟨rfl, rfl⟩

/-- C7 witness: `"Foo@Bar.com "` and `"foo@bar.com"` receive the same
avatar URL, built from the MD5 digest of `"foo@bar.com"`. -/
theorem C7_avatar_deterministic_witness :
    c7out1.getOpt "avatar" = c7out2.getOpt "avatar" ∧
    c7out1.getOpt "avatar" =
      some (.str ("https://www.gravatar.com/avatar/" ++
        md5Hex (pyLower (pyStrip "Foo@Bar.com ")))) :=
  C7_avatar_deterministic (.str "Foo@Bar.com ") (.str "foo@bar.com")
    "Foo@Bar.com " "foo@bar.com" c7out1 c7out2 rfl rfl (by decide) (by rfl) (by rfl)

/- ## String lemmas for the replace-based key derivations -/

theorem string_mk_data (s : String) : String.mk s.data = s := by
  cases s
  rfl

theorem string_data_append (a b : String) : (a ++ b).data = a.data ++ b.data := by
  cases a
  cases b
  rfl

theorem isPrefixOf_append_self (l t : List Char) : l.isPrefixOf (l ++ t) = true := by
  induction l with
  | nil => cases t <;> rfl
  | cons a as ih => simp [List.isPrefixOf, ih]

theorem isPrefixOf_of_append (a b s : List Char)
    (h : (a ++ b).isPrefixOf s = true) : a.isPrefixOf s = true := by
  induction a generalizing s with
  | nil => cases s <;> rfl
  | cons x xs ih =>
    cases s with
    | nil => simp [List.isPrefixOf] at h
    | cons y ys =>
      rw [List.cons_append, List.isPrefixOf] at h
      rw [List.isPrefixOf]
      simp only [Bool.and_eq_true] at h ⊢
      exact ⟨h.1, ih ys h.2⟩

theorem isPrefixOf_ex {p s : List Char} (h : p.isPrefixOf s = true) :
    ∃ t, s = p ++ t := by
  induction p generalizing s with
  | nil => exact ⟨s, rfl⟩
  | cons x xs ih =>
    cases s with
    | nil => simp [List.isPrefixOf] at h
    | cons y ys =>
      rw [List.isPrefixOf] at h
      simp only [Bool.and_eq_true, beq_iff_eq] at h
      obtain ⟨t, ht⟩ := ih h.2
      exact ⟨t, by rw [List.cons_append, ← ht, h.1]⟩

theorem pyStartsWith_append (pre s : String) : pyStartsWith (pre ++ s) pre = true := by
  unfold pyStartsWith
  rw [string_data_append]
  exact isPrefixOf_append_self _ _

theorem stripAllGo_of_not_sub (p : Char) (ps : List Char) (fuel : Nat) (s : List Char)
    (h : hasSubL (p :: ps) s = false) : stripAllGo p ps fuel s = s := by
  induction fuel generalizing s with
  | zero => cases s <;> rfl
  | succ f ih =>
    cases s with
    | nil => rfl
    | cons c rest =>
      unfold hasSubL at h
      simp only [Bool.or_eq_false_iff] at h
      unfold stripAllGo
      rw [if_neg (by simp [h.1])]
      rw [ih rest h.2]

theorem stripAllGo_strip_head (p : Char) (ps : List Char) (fuel : Nat) (t : List Char)
    (h : hasSubL (p :: ps) t = false) :
    stripAllGo p ps (fuel + 1) ((p :: ps) ++ t) = t := by
  have hcond : (p :: ps).isPrefixOf (p :: (ps ++ t)) = true := by
    have h2 := isPrefixOf_append_self (p :: ps) t
    rwa [List.cons_append] at h2
  show stripAllGo p ps (fuel + 1) (p :: (ps ++ t)) = t
  unfold stripAllGo
  rw [if_pos hcond]
  rw [show (ps ++ t).drop ps.length = t from List.drop_left ps t]
  exact stripAllGo_of_not_sub p ps fuel t h

theorem stripAll_append_eq (pat s : String) (p : Char) (ps : List Char)
    (hb : pat.data = p :: ps) (h : hasSub pat s = false) :
    stripAll pat (pat ++ s) = s := by
  unfold hasSub at h
  rw [hb] at h
  unfold stripAll
  rw [string_data_append, hb]
  dsimp only
  have hlen : ((p :: ps) ++ s.data).length = (ps.length + s.data.length) + 1 := by
    simp [List.length_append, List.length_cons]
  rw [hlen, stripAllGo_strip_head p ps (ps.length + s.data.length) s.data h,
    string_mk_data]

/- ## C2 -/

/-- C2: two attachments whose flags share channel and status are merged
into a single versions entry holding both attachment ids as strings in
insertion order; in particular the bug with attachments 42 and 43 carrying
the beta approval flag yields the single entry `"beta +"` with attachments
`["42", "43"]`. -/
theorem C2_version_grouping_merge (n1 n2 : Int) (fname st : String)
    (h : pyStartsWith fname approvalBase = true) :
    buildVersions (.list [mkAtt n1 fname st, mkAtt n2 fname st]) =
      .ok [(stripAll approvalBase fname ++ " " ++ st,
        .dict [("name", .str fname),
          ("attachments", .list [.str (toString n1), .str (toString n2)]),
          ("status", .str st)])] ∧
    getField (serialize_bug c2bug) "versions" =
      some (.dict [("beta +",
        .dict [("name", .str "approval-mozilla-beta"),
          ("attachments", .list [.str "42", .str "43"]), ("status", .str "+")])]) := by
  constructor
  · simp [buildVersions, efoldl, processAttachment, processFlag, mkAtt, getItemD, dlookup,
      h, containsKey, newVersionEntry, appendAttE, dictSet, Val.pyStr, ebind]
  · rfl

/-- C2 witness: the grouping equation at the concrete attachments 42 and
43 with the beta approval flag. -/
theorem C2_version_grouping_merge_witness :
    buildVersions (.list
        [mkAtt 42 "approval-mozilla-beta" "+", mkAtt 43 "approval-mozilla-beta" "+"]) =
      .ok [("beta +",
        .dict [("name", .str "approval-mozilla-beta"),
          ("attachments", .list [.str "42", .str "43"]), ("status", .str "+")])] :=
  ((C2_version_grouping_merge 42 43 "approval-mozilla-beta" "+" (by rfl)).1).trans (by rfl)

/- ## C5 -/

/-- C5 counterexample: the code derives the base name with
`replace(approval_base_flag, '')`, which removes every occurrence of the
marker, not only the leading one. For the flag name
`"approval-mozilla-approval-mozilla-beta"` the produced grouping key is
`"beta +"`, whereas the suffix after the leading marker would give
`"approval-mozilla-beta +"`. -/
theorem C5_counterexample_replace_all :
    buildVersions (.list [mkAtt 1 "approval-mozilla-approval-mozilla-beta" "+"]) =
      .ok [("beta +",
        .dict [("name", .str "approval-mozilla-approval-mozilla-beta"),
          ("attachments", .list [.str "1"]), ("status", .str "+")])] ∧
    ("beta +" : String) ≠
      stringDrop 17 "approval-mozilla-approval-mozilla-beta" ++ " " ++ "+" := by
  exact ⟨by rfl, by decide⟩

/-- C5 (amended): for every flag whose name is the `approval-mozilla-`
marker followed by a suffix in which the marker does not occur again (the
case for all real channel names), the derived base name is exactly that
suffix and the grouping key is `"<suffix> <status>"`; in general the base
name is the flag name with every occurrence of the marker removed. -/
theorem C5_base_name_strip (suffix st : String) (n : Int)
    (h : hasSub approvalBase suffix = false) :
    stripAll approvalBase (approvalBase ++ suffix) = suffix ∧
    buildVersions (.list [mkAtt n (approvalBase ++ suffix) st]) =
      .ok [(suffix ++ " " ++ st,
        .dict [("name", .str (approvalBase ++ suffix)),
          ("attachments", .list [.str (toString n)]), ("status", .str st)])] := by
  have hstrip : stripAll approvalBase (approvalBase ++ suffix) = suffix :=
    stripAll_append_eq approvalBase suffix _ _ rfl h
  refine ⟨hstrip, ?_⟩
  have hsw : pyStartsWith (approvalBase ++ suffix) approvalBase = true :=
    pyStartsWith_append approvalBase suffix
  simp [buildVersions, efoldl, processAttachment, processFlag, mkAtt, getItemD, dlookup,
    hsw, containsKey, newVersionEntry, appendAttE, dictSet, Val.pyStr, ebind, hstrip]

/-- C5 amended witness: the suffix `"beta"` with status `"+"`. -/
theorem C5_base_name_strip_witness :
    stripAll approvalBase (approvalBase ++ "beta") = "beta" ∧
    buildVersions (.list [mkAtt 7 (approvalBase ++ "beta") "+"]) =
      .ok [("beta" ++ " " ++ "+",
        .dict [("name", .str (approvalBase ++ "beta")),
          ("attachments", .list [.str (toString (7 : Int))]), ("status", .str "+")])] :=
  C5_base_name_strip "beta" "+" 7 (by rfl)

/- ## C3 -/

/-- C3 (amended): the `uplift` output field is `None` unless the analysis
carries both `uplift_comment` and `uplift_author` with truthy (non-empty)
values; when both are present and truthy the uplift block carries the
comment's id, the normalized author, and a comment body that is the
comment's `html` field if present, else its `text` field, else the literal
`"No comment."`; and a successful `serialize_bug` run stores exactly the
built uplift value under `uplift`. -/
theorem C3_uplift_truthy (anaEs : List (String × Val)) :
    ((((dlookup anaEs "uplift_comment").getD .null).truthy = false ∨
      ((dlookup anaEs "uplift_author").getD .null).truthy = false) →
      buildUplift anaEs = .ok .null) ∧
    (∀ ces ua au idV,
      dlookup anaEs "uplift_comment" = some (.dict ces) →
      (Val.dict ces).truthy = true →
      dlookup anaEs "uplift_author" = some ua →
      ua.truthy = true →
      dlookup ces "id" = some idV →
      serialize_user ua = .ok au →
      ((∀ hv, dlookup ces "html" = some hv →
         buildUplift anaEs = .ok (.dict [("id", idV), ("author", au), ("comment", hv)])) ∧
       (∀ tv, dlookup ces "html" = none → dlookup ces "text" = some tv →
         buildUplift anaEs = .ok (.dict [("id", idV), ("author", au), ("comment", tv)])) ∧
       (dlookup ces "html" = none → dlookup ces "text" = none →
         buildUplift anaEs = .ok (.dict [("id", idV), ("author", au),
           ("comment", .str "No comment.")])))) ∧
    (∀ bug payloadEs bugEs out u,
      bug.payload_data = .dict payloadEs →
      dlookup payloadEs "bug" = some (.dict bugEs) →
      dlookup payloadEs "analysis" = some (.dict anaEs) →
      (Val.dict bugEs).truthy = true →
      (Val.dict anaEs).truthy = true →
      serialize_bug bug = .ok out →
      buildUplift anaEs = .ok u →
      out.getOpt "uplift" = some u) := by
  refine ⟨?_, ?_, ?_⟩
  · intro hfalsy
    unfold buildUplift
    rcases hfalsy with h | h
    · rw [if_neg (by simp [h])]
    · rw [if_neg (by simp [h])]
  · intro ces ua au idV hc hct ha hat hid hau
    refine ⟨?_, ?_, ?_⟩
    · intro hv hhtml
      unfold buildUplift
      rw [hc, ha]
      simp [hct, hat, hhtml, hid, hau, ebind]
    · intro tv hhtml htext
      unfold buildUplift
      rw [hc, ha]
      simp [hct, hat, hhtml, htext, hid, hau, ebind]
    · intro hhtml htext
      unfold buildUplift
      rw [hc, ha]
      simp [hct, hat, hhtml, htext, hid, hau, ebind]
  · intro bug payloadEs bugEs out u hp hb ha hbt hat hok hu
    obtain ⟨uplift, versions, summary, keywords, creator, assignee, reviewers, patches,
      hu2, hv2, hs2, hk2, hout⟩ :=
      serialize_bug_ok_shape bug payloadEs bugEs anaEs out hp hb ha hbt hat hok
    have : uplift = u := by
      have h2 := hu2.symm.trans hu
      exact (Except.ok.inj h2)
    subst this
    rw [hout]
    simp [Val.getOpt, dlookup]

/-- C3 counterexample: in `c3bug` the analysis carries both
`uplift_comment` and `uplift_author` keys, yet because the comment is an
empty (falsy) mapping the serialized record's `uplift` field is `None` and
no uplift block with an `id` is produced — the gate is truthiness, not key
presence. -/
theorem C3_uplift_presence_counterexample :
    containsKey c3anaEs "uplift_comment" = true ∧
    containsKey c3anaEs "uplift_author" = true ∧
    getField (serialize_bug c3bug) "uplift" = some .null := by
  exact ⟨rfl, rfl, rfl⟩

/-- C3 witness: an absent uplift request yields `None`; a truthy comment
with an `html` body and a truthy author yield the full uplift block. -/
theorem C3_uplift_truthy_witness :
    buildUplift [] = .ok .null ∧
    buildUplift c3goodAnaEs =
      .ok (.dict [("id", .int 9), ("author", c3author), ("comment", .str "<p>hi</p>")]) := by
  constructor
  · exact (C3_uplift_truthy []).1 (Or.inl (by rfl))
  · exact ((C3_uplift_truthy c3goodAnaEs).2.1 [("id", .int 9), ("html", .str "<p>hi</p>")]
      (.str "dev@x.org") c3author (.int 9) rfl (by rfl) rfl (by rfl) rfl (by rfl)).1
      (.str "<p>hi</p>") rfl

/- ## C8 -/

theorem stripOnceAux_pre (p : Char) (ps : List Char) (s : List Char)
    (h : (p :: ps).isPrefixOf s = true) :
    stripOnceAux p ps s = s.drop (ps.length + 1) := by
  cases s with
  | nil => simp [List.isPrefixOf] at h
  | cons c rest =>
    unfold stripOnceAux
    rw [if_pos h, List.drop_succ_cons]

theorem stripOnce_drop_of_pre (base k : String) (p : Char) (ps : List Char)
    (hb : base.data = p :: ps) (h : (p :: ps).isPrefixOf k.data = true) :
    stripOnce base k = stringDrop base.data.length k := by
  unfold stripOnce stringDrop
  rw [hb]
  dsimp only
  rw [stripOnceAux_pre p ps k.data h, List.length_cons]

/-- On keys selected by the `base ++ "firefox"` filter, removing the first
occurrence of `base` is the same as dropping the `base`-length leading
characters. -/
theorem filter_flags_drop (es : List (String × Val)) (base : String) (p : Char)
    (ps : List Char) (hb : base.data = p :: ps) :
    _filter_flags es base =
      .dict (pyDict ((es.filter (fun kv => pyStartsWith kv.1 (base ++ "firefox"))).map
        (fun kv => (stringDrop base.data.length kv.1, kv.2)))) := by
  unfold _filter_flags
  congr 1
  congr 1
  apply List.map_congr_left
  intro kv hkv
  have hs : pyStartsWith kv.1 (base ++ "firefox") = true := (List.mem_filter.mp hkv).2
  have hpre : (p :: ps).isPrefixOf kv.1.data = true := by
    have h2 : (base.data ++ ("firefox" : String).data).isPrefixOf kv.1.data = true := by
      unfold pyStartsWith at hs
      rwa [string_data_append] at hs
    have h3 := isPrefixOf_of_append base.data ("firefox" : String).data kv.1.data h2
    rwa [hb] at h3
  rw [stripOnce_drop_of_pre base kv.1 p ps hb hpre]

/-- C8: `flags_status` and `flags_tracking` are independent mappings built
by filtering the bug fields on the `cf_status_firefox` and
`cf_tracking_firefox` name filters, keyed by the field name with only the
`cf_status_` / `cf_tracking_` part stripped — so every key still starts
with `firefox` — and carrying the raw field values; a successful
`serialize_bug` run stores exactly these mappings. -/
theorem C8_filter_flags (es : List (String × Val)) :
    _filter_flags es "cf_status_" =
      .dict (pyDict ((es.filter (fun kv => pyStartsWith kv.1 "cf_status_firefox")).map
        (fun kv => (stringDrop 10 kv.1, kv.2)))) ∧
    _filter_flags es "cf_tracking_" =
      .dict (pyDict ((es.filter (fun kv => pyStartsWith kv.1 "cf_tracking_firefox")).map
        (fun kv => (stringDrop 12 kv.1, kv.2)))) ∧
    (∀ k v, (k, v) ∈ (es.filter (fun kv => pyStartsWith kv.1 "cf_status_firefox")).map
        (fun kv => (stringDrop 10 kv.1, kv.2)) → pyStartsWith k "firefox" = true) ∧
    (∀ k v, (k, v) ∈ (es.filter (fun kv => pyStartsWith kv.1 "cf_tracking_firefox")).map
        (fun kv => (stringDrop 12 kv.1, kv.2)) → pyStartsWith k "firefox" = true) ∧
    (∀ bug payloadEs anaEs out,
      bug.payload_data = .dict payloadEs →
      dlookup payloadEs "bug" = some (.dict es) →
      dlookup payloadEs "analysis" = some (.dict anaEs) →
      (Val.dict es).truthy = true →
      (Val.dict anaEs).truthy = true →
      serialize_bug bug = .ok out →
      out.getOpt "flags_status" = some (_filter_flags es "cf_status_") ∧
      out.getOpt "flags_tracking" = some (_filter_flags es "cf_tracking_")) := by
  refine ⟨?_, ?_, ?_, ?_, ?_⟩
  · have h := filter_flags_drop es "cf_status_" _ _ rfl
    simpa only [show ("cf_status_" : String) ++ "firefox" = "cf_status_firefox" from rfl,
      show ("cf_status_" : String).data.length = 10 from rfl] using h
  · have h := filter_flags_drop es "cf_tracking_" _ _ rfl
    simpa only [show ("cf_tracking_" : String) ++ "firefox" = "cf_tracking_firefox" from rfl,
      show ("cf_tracking_" : String).data.length = 12 from rfl] using h
  · intro k v hmem
    obtain ⟨kv, hkv, heq⟩ := List.mem_map.mp hmem
    cases heq
    have hs : pyStartsWith kv.1 "cf_status_firefox" = true := (List.mem_filter.mp hkv).2
    obtain ⟨t, ht⟩ := isPrefixOf_ex
      (show ("cf_status_firefox" : String).data.isPrefixOf kv.1.data = true from hs)
    show ("firefox" : String).data.isPrefixOf (kv.1.data.drop 10) = true
    rw [ht,
      show ("cf_status_firefox" : String).data =
        ("cf_status_" : String).data ++ ("firefox" : String).data from rfl,
      List.append_assoc,
      show (10 : Nat) = ("cf_status_" : String).data.length from rfl,
      List.drop_left]
    exact isPrefixOf_append_self _ _
  · intro k v hmem
    obtain ⟨kv, hkv, heq⟩ := List.mem_map.mp hmem
    cases heq
    have hs : pyStartsWith kv.1 "cf_tracking_firefox" = true := (List.mem_filter.mp hkv).2
    obtain ⟨t, ht⟩ := isPrefixOf_ex
      (show ("cf_tracking_firefox" : String).data.isPrefixOf kv.1.data = true from hs)
    show ("firefox" : String).data.isPrefixOf (kv.1.data.drop 12) = true
    rw [ht,
      show ("cf_tracking_firefox" : String).data =
        ("cf_tracking_" : String).data ++ ("firefox" : String).data from rfl,
      List.append_assoc,
      show (12 : Nat) = ("cf_tracking_" : String).data.length from rfl,
      List.drop_left]
    exact isPrefixOf_append_self _ _
  · intro bug payloadEs anaEs out hp hb ha hbt hat hok
    obtain ⟨uplift, versions, summary, keywords, creator, assignee, reviewers, patches,
      hu2, hv2, hs2, hk2, hout⟩ :=
      serialize_bug_ok_shape bug payloadEs es anaEs out hp hb ha hbt hat hok
    rw [hout]
    constructor <;> simp [Val.getOpt, dlookup]

/-- C8 witness: the mixed field list `c8es` yields the two mappings with
`firefox`-headed keys. -/
theorem C8_filter_flags_witness :
    _filter_flags c8es "cf_status_" = .dict [("firefox52", .str "affected")] ∧
    _filter_flags c8es "cf_tracking_" = .dict [("firefox52", .str "+")] ∧
    pyStartsWith "firefox52" "firefox" = true := by
  refine ⟨((C8_filter_flags c8es).1).trans (by rfl),
    ((C8_filter_flags c8es).2.1).trans (by rfl), ?_⟩
  exact (C8_filter_flags c8es).2.2.1 "firefox52" (.str "affected") (List.Mem.head _)

/- ## C10 -/

/-- C10: a payload whose `bug` sub-object lacks the `attachments` key does
not make `serialize_bug` fault on that access: the attachments default to
the empty list, the versions grouping returns the empty mapping, and a
successful run stores `versions = {}` — while a field accessed without a
fallback, such as `summary`, raises a KeyError when absent. -/
theorem C10_missing_attachments_default (bugEs : List (String × Val)) :
    (dlookup bugEs "attachments" = none →
      buildVersions ((dlookup bugEs "attachments").getD (.list [])) = .ok []) ∧
    (∀ bug payloadEs anaEs out,
      bug.payload_data = .dict payloadEs →
      dlookup payloadEs "bug" = some (.dict bugEs) →
      dlookup payloadEs "analysis" = some (.dict anaEs) →
      (Val.dict bugEs).truthy = true →
      (Val.dict anaEs).truthy = true →
      dlookup bugEs "attachments" = none →
      serialize_bug bug = .ok out →
      out.getOpt "versions" = some (.dict [])) ∧
    getField (serialize_bug c10bug) "versions" = some (.dict []) ∧
    serialize_bug c10noSummaryBug = .error "KeyError: summary" := by
  refine ⟨?_, ?_, by rfl, by rfl⟩
  · intro h
    rw [h]
    rfl
  · intro bug payloadEs anaEs out hp hb ha hbt hat hmiss hok
    obtain ⟨uplift, versions, summary, keywords, creator, assignee, reviewers, patches,
      hu2, hv2, hs2, hk2, hout⟩ :=
      serialize_bug_ok_shape bug payloadEs bugEs anaEs out hp hb ha hbt hat hok
    rw [hmiss] at hv2
    have hnil : versions = [] := by
      have h0 : buildVersions ((Option.none).getD (Val.list [])) =
          Except.ok ([] : List (String × Val)) := rfl
      exact (Except.ok.inj (h0.symm.trans hv2)).symm
    subst hnil
    rw [hout]
    simp [Val.getOpt, dlookup]

/-- C10 witness: a `bug` sub-object with only `summary` and `keywords`
defaults to no versions, and the complete run on `c10bug` stores the empty
versions mapping. -/
theorem C10_missing_attachments_default_witness :
    buildVersions
      ((dlookup [("summary", Val.str "s"), ("keywords", Val.list [])] "attachments").getD
        (.list [])) = .ok [] ∧
    c10out.getOpt "versions" = some (.dict []) := by
  constructor
  · exact (C10_missing_attachments_default
      [("summary", .str "s"), ("keywords", .list [])]).1 rfl
  · exact (C10_missing_attachments_default
      [("summary", .str "s"), ("keywords", .list [])]).2.1 c10bug
      [("bug", .dict [("summary", .str "s"), ("keywords", .list [])]),
       ("analysis", .dict
         [("users", .dict
            [("creator", .str "c@x.org"), ("assignee", .str "a@x.org"),
             ("reviewers", .list [])]),
          ("patches", .list [])])]
      [("users", .dict
         [("creator", .str "c@x.org"), ("assignee", .str "a@x.org"),
          ("reviewers", .list [])]),
       ("patches", .list [])]
      c10out rfl rfl rfl (by rfl) (by rfl) rfl (by rfl)

end Shipit
